import Mathlib

/-!
Verification of the incremental knowledge-base enrichment orchestrator
(inklined political dashboard).

The development shallowly embeds the decision logic of
`scripts/trump_admin/economic_policy/tariff_update_merger.py`,
`scripts/trump_admin/economic_policy/tariff_merger.py` and
`scripts/foreign_affairs/affairs_ai.py` into Lean.  Python strings are
modelled as `String` / `List Char`; Python `str.lower`, `str.strip`,
`str.split`, substring tests and list sorting are re-implemented below by
structural recursion so that every definition evaluates inside the kernel.
JSON values produced by `json.loads` are modelled by the closed sum `PyVal`;
the regex-and-`json.loads` boundary of the AI-response handling is modelled
by passing the raw response string together with the (possible) parsed
object, exactly as the code consumes them.
-/

namespace Ink

/-- Lower-case a single ASCII character (model of Python `str.lower` on the
ASCII strings that occur in this code base). -/
def lowerChar (c : Char) : Char :=
  if 'A' ≤ c ∧ c ≤ 'Z' then Char.ofNat (c.toNat + 32) else c

/-- Upper-case a single ASCII character (model of Python `str.upper`). -/
def upperChar (c : Char) : Char :=
  if 'a' ≤ c ∧ c ≤ 'z' then Char.ofNat (c.toNat - 32) else c

/-- Python whitespace for `str.strip` (space, tab, newline, carriage return,
vertical tab, form feed). -/
def isPySpace (c : Char) : Bool :=
  c = ' ' ∨ c = '\t' ∨ c = '\n' ∨ c = '\r' ∨ c = '\x0b' ∨ c = '\x0c'

/-- Model of Python `str.strip` on a character list. -/
def stripL (s : List Char) : List Char :=
  ((s.dropWhile isPySpace).reverse.dropWhile isPySpace).reverse

/-- Model of Python `str.lower`. -/
def lowerL (s : List Char) : List Char := s.map lowerChar

/-- Model of Python `str.upper`. -/
def upperL (s : List Char) : List Char := s.map upperChar

/-- `leadsWith pat s` holds when `s` starts with `pat`. -/
def leadsWith : List Char → List Char → Bool
  | [], _ => true
  | _ :: _, [] => false
  | p :: ps, s :: ss => p = s && leadsWith ps ss

/-- `hasSub pat s` models Python `pat in s` (substring containment). -/
def hasSub (pat : List Char) : List Char → Bool
  | [] => leadsWith pat []
  | s :: ss => leadsWith pat (s :: ss) || hasSub pat ss

/-- Substring containment at the `String` level: Python `pat in s`. -/
def strHas (s pat : String) : Bool := hasSub pat.toList s.toList

/-- String version of `stripL`: Python `s.strip()`. -/
def strip (s : String) : String := ⟨stripL s.toList⟩

/-- String version of `lowerL`: Python `s.lower()`. -/
def lower (s : String) : String := ⟨lowerL s.toList⟩

/-- String version of `upperL`: Python `s.upper()`. -/
def upper (s : String) : String := ⟨upperL s.toList⟩

/-- Fuel-driven worker for `countSub`; one unit of fuel is spent per character
position, so fuel `s.length` always suffices. -/
def countSubF (pat : List Char) : Nat → List Char → Nat
  | 0, _ => 0
  | _ + 1, [] => 0
  | fuel + 1, s :: ss =>
    if leadsWith pat (s :: ss) ∧ pat ≠ [] then
      countSubF pat fuel ((s :: ss).drop pat.length) + 1
    else
      countSubF pat fuel ss

/-- Number of non-overlapping occurrences of `pat` (non-empty) in `s`,
scanning left to right: Python `s.count(pat)`. -/
def countSub (pat s : List Char) : Nat := countSubF pat s.length s

/-- Python `s.count(pat)` at the `String` level. -/
def strCount (s pat : String) : Nat := countSub pat.toList s.toList

/-- Fuel-driven worker for `splitOnL`. -/
def splitOnF (sep : List Char) : Nat → List Char → List (List Char)
  | 0, _ => [[]]
  | _ + 1, [] => [[]]
  | fuel + 1, s :: ss =>
    if leadsWith sep (s :: ss) ∧ sep ≠ [] then
      [] :: splitOnF sep fuel ((s :: ss).drop sep.length)
    else
      match splitOnF sep fuel ss with
      | [] => [[s]]
      | g :: gs => (s :: g) :: gs

/-- Model of Python `s.split(sep)` for a non-empty separator: scans left to
right, cutting at each non-overlapping occurrence of `sep`. -/
def splitOnL (sep s : List Char) : List (List Char) := splitOnF sep s.length s

/-- Python `s.split(sep)` at the `String` level. -/
def splitOnS (s sep : String) : List String :=
  (splitOnL sep.toList s.toList).map List.asString

/-- Code-point lexicographic `≤` on character lists: model of Python string
comparison (`<=` compares code points position by position). -/
def leChars : List Char → List Char → Bool
  | [], _ => true
  | _ :: _, [] => false
  | a :: as, b :: bs =>
    if a.toNat < b.toNat then true
    else if b.toNat < a.toNat then false
    else leChars as bs

/-- Python `a <= b` on strings. -/
def leStr (a b : String) : Bool := leChars a.toList b.toList

theorem leChars_total : ∀ a b : List Char, leChars a b = true ∨ leChars b a = true := by
  intro a
  induction a with
  | nil => intro b; left; rfl
  | cons x xs ih =>
    intro b
    cases b with
    | nil => right; rfl
    | cons y ys =>
      by_cases hxy : x.toNat < y.toNat
      · left; simp [leChars, hxy]
      · by_cases hyx : y.toNat < x.toNat
        · right; simp [leChars, hyx]
        · rcases ih ys with h | h
          · left; simp [leChars, hxy, hyx, h]
          · right; simp [leChars, hxy, hyx, h]

theorem leChars_trans : ∀ a b c : List Char,
    leChars a b = true → leChars b c = true → leChars a c = true := by
  intro a
  induction a with
  | nil => intro b c _ _; rfl
  | cons x xs ih =>
    intro b c hab hbc
    cases b with
    | nil => simp [leChars] at hab
    | cons y ys =>
      cases c with
      | nil => simp [leChars] at hbc
      | cons z zs =>
        simp only [leChars] at hab hbc ⊢
        rcases Nat.lt_trichotomy x.toNat y.toNat with hxy | hxy | hxy <;>
          rcases Nat.lt_trichotomy y.toNat z.toNat with hyz | hyz | hyz
        · simp [show x.toNat < z.toNat by omega]
        · simp [show x.toNat < z.toNat by omega]
        · simp only [if_pos hxy] at hab
          simp only [if_neg (by omega : ¬ y.toNat < z.toNat),
            if_pos (by omega : z.toNat < y.toNat)] at hbc
          exact absurd hbc (by simp)
        · simp [show x.toNat < z.toNat by omega]
        · have hxz : ¬ x.toNat < z.toNat := by omega
          have hzx : ¬ z.toNat < x.toNat := by omega
          simp only [if_neg (by omega : ¬ x.toNat < y.toNat),
            if_neg (by omega : ¬ y.toNat < x.toNat)] at hab
          simp only [if_neg (by omega : ¬ y.toNat < z.toNat),
            if_neg (by omega : ¬ z.toNat < y.toNat)] at hbc
          simp only [if_neg hxz, if_neg hzx]
          exact ih ys zs hab hbc
        · simp only [if_neg (by omega : ¬ y.toNat < z.toNat),
            if_pos (by omega : z.toNat < y.toNat)] at hbc
          exact absurd hbc (by simp)
        · simp only [if_neg (by omega : ¬ x.toNat < y.toNat),
            if_pos (by omega : y.toNat < x.toNat)] at hab
          exact absurd hab (by simp)
        · simp only [if_neg (by omega : ¬ x.toNat < y.toNat),
            if_pos (by omega : y.toNat < x.toNat)] at hab
          exact absurd hab (by simp)
        · simp only [if_neg (by omega : ¬ x.toNat < y.toNat),
            if_pos (by omega : y.toNat < x.toNat)] at hab
          exact absurd hab (by simp)

end Ink

namespace TariffUpdateMerger

/-! ## Dedup Ledger
Model of `TariffUpdateMerger` in
`scripts/trump_admin/economic_policy/tariff_update_merger.py`.
A ledger entry (one element of the `updates` array) is modelled by the three
fields the merge logic reads. -/

open Ink

/-- One feed-style update record; only `title`, `description` and
`announcement_date` are consulted by `normalize_update` / `merge_updates`. -/
structure Upd where
  title : String
  description : String
  announcement_date : String
deriving DecidableEq, Repr

/-- `TariffUpdateMerger.normalize_update` (lines 145-152): key is
`title.lower().strip() + "|" + announcement_date`.  (The lower-cased stripped
`description` is computed by the code but unused.) -/
def normalize_update (u : Upd) : String :=
  strip (lower u.title) ++ "|" ++ u.announcement_date

/-- The duplicate-skipping loop of `merge_updates` (lines 173-178): keep each
candidate whose key is not yet in the seen-set, adding kept keys to the set. -/
def collectNew (seen : List String) : List Upd → List Upd
  | [] => []
  | u :: rest =>
    let n := normalize_update u
    if n ∈ seen then collectNew seen rest
    else u :: collectNew (n :: seen) rest

/-- Descending-date ordering used by
`all_updates.sort(key=lambda x: x.get('announcement_date', ''), reverse=True)`:
`u` may precede `v` iff `v`'s date is `≤` `u`'s date.  Python's sort is
stable, so the list it produces is the unique stable descending reordering,
which insertion sort with this relation computes. -/
def updBefore (u v : Upd) : Prop :=
  leStr v.announcement_date u.announcement_date = true

instance : DecidableRel updBefore := by
  intro u v
  unfold updBefore
  infer_instance

instance : IsTotal Upd updBefore where
  total u v := by
    rcases leChars_total v.announcement_date.toList u.announcement_date.toList with h | h
    · exact Or.inl h
    · exact Or.inr h

instance : IsTrans Upd updBefore where
  trans u v w huv hvw :=
    leChars_trans w.announcement_date.toList v.announcement_date.toList
      u.announcement_date.toList hvw huv

/-- The stable descending sort on line 186 of `merge_updates`. -/
def sortByDateDesc (l : List Upd) : List Upd := List.insertionSort updBefore l

/-- `TariffUpdateMerger.merge_updates` (lines 154-192), restricted to the
`updates` array it transforms: build the seen-set from the existing entries,
append the non-duplicate candidates, and re-sort by date descending. -/
def merge_updates (existing gemini : List Upd) : List Upd :=
  let existing_normalized := existing.map normalize_update
  let new_updates := collectNew existing_normalized gemini
  sortByDateDesc (existing ++ new_updates)

theorem collectNew_key_mem (g : List Upd) :
    ∀ (seen : List String) (u : Upd), u ∈ g →
      normalize_update u ∈ seen ∨
      normalize_update u ∈ (collectNew seen g).map normalize_update := by
  induction g with
  | nil => intro seen u h; cases h
  | cons w rest ih =>
    intro seen u hu
    by_cases hw : normalize_update w ∈ seen
    · have hc : collectNew seen (w :: rest) = collectNew seen rest := by
        simp [collectNew, hw]
      rcases List.mem_cons.mp hu with rfl | hu'
      · exact Or.inl hw
      · rw [hc]; exact ih seen u hu'
    · have hc : collectNew seen (w :: rest) =
          w :: collectNew (normalize_update w :: seen) rest := by
        simp [collectNew, hw]
      rcases List.mem_cons.mp hu with rfl | hu'
      · right; rw [hc]; simp
      · rcases ih (normalize_update w :: seen) u hu' with hmem | hmem
        · rcases List.mem_cons.mp hmem with heq | hseen
          · right; rw [hc]; simp [heq]
          · exact Or.inl hseen
        · right; rw [hc]; simpa using Or.inr hmem

theorem collectNew_eq_nil (g : List Upd) :
    ∀ seen : List String, (∀ u ∈ g, normalize_update u ∈ seen) →
      collectNew seen g = [] := by
  induction g with
  | nil => intro seen _; rfl
  | cons w rest ih =>
    intro seen h
    have hw : normalize_update w ∈ seen := h w (by simp)
    simp only [collectNew, if_pos hw]
    exact ih seen fun u hu => h u (by simp [hu])

theorem sortByDateDesc_perm (l : List Upd) : (sortByDateDesc l).Perm l :=
  List.perm_insertionSort updBefore l

theorem sortByDateDesc_sorted (l : List Upd) : (sortByDateDesc l).Sorted updBefore :=
  List.sorted_insertionSort updBefore l

/-- C1 -- Dedup Ledger merge is idempotent: merging the same candidate batch a
second time into the already-merged ledger returns the merged ledger
unchanged (no entry added, removed or reordered). -/
theorem merge_updates_idempotent (existing gemini : List Upd) :
    merge_updates (merge_updates existing gemini) gemini =
      merge_updates existing gemini := by
  set L1 := merge_updates existing gemini with hL1
  have hperm : L1.Perm (existing ++ collectNew (existing.map normalize_update) gemini) := by
    rw [hL1]
    exact sortByDateDesc_perm _
  have hall : ∀ u ∈ gemini, normalize_update u ∈ L1.map normalize_update := by
    intro u hu
    have h := collectNew_key_mem gemini (existing.map normalize_update) u hu
    have hmem : normalize_update u ∈
        (existing ++ collectNew (existing.map normalize_update) gemini).map normalize_update := by
      rcases h with h | h
      · simpa using Or.inl h
      · simpa using Or.inr h
    exact ((hperm.map normalize_update).mem_iff).mpr hmem
  have hnil : collectNew (L1.map normalize_update) gemini = [] :=
    collectNew_eq_nil gemini (L1.map normalize_update) hall
  have hsorted : L1.Sorted updBefore := by
    rw [hL1]
    exact sortByDateDesc_sorted _
  show sortByDateDesc (L1 ++ collectNew (L1.map normalize_update) gemini) = L1
  rw [hnil, List.append_nil]
  exact hsorted.insertionSort_eq

end TariffUpdateMerger

namespace TariffAnalyzer

/-! ## Recency Filter and Source Credibility Filter
Model of `TariffAnalyzer` in
`scripts/trump_admin/economic_policy/tariff_merger.py`. -/

open Ink

/-- A calendar date; `datetime` values produced by `parse_date` always have
time 00:00, so comparison is date comparison. -/
structure Date where
  year : Nat
  month : Nat
  day : Nat
deriving DecidableEq, Repr

/-- `a <= b` on midnight datetimes. -/
def dateLe (a b : Date) : Bool :=
  decide (a.year < b.year ∨ (a.year = b.year ∧
    (a.month < b.month ∨ (a.month = b.month ∧ a.day ≤ b.day))))

/-- `self.min_update_date = datetime(2025, 4, 2)` (line 35). -/
def min_update_date : Date := ⟨2025, 4, 2⟩

/-- Gregorian leap-year rule used by `datetime`'s validation. -/
def isLeap (y : Nat) : Bool := y % 4 == 0 && (y % 100 != 0 || y % 400 == 0)

/-- Days in a month, as validated by the `datetime` constructor. -/
def daysInMonth (y m : Nat) : Nat :=
  if m = 2 then (if isLeap y then 29 else 28)
  else if m = 4 ∨ m = 6 ∨ m = 9 ∨ m = 11 then 30
  else 31

/-- The `datetime(year, month, day)` constructor succeeds exactly on these
triples (year 1..9999, month 1..12, day within the month). -/
def validDate (y m d : Nat) : Bool :=
  1 ≤ y && y ≤ 9999 && 1 ≤ m && m ≤ 12 && 1 ≤ d && d ≤ daysInMonth y m

/-- One `strptime` directive or literal, for the format strings tried by
`parse_date`.  A run of whitespace in a format matches one or more whitespace
characters; literals match case-insensitively; `%d`/`%m` consume one or two
digits; `%Y` consumes exactly four digits.  (For these formats -- every
numeric field is followed by a non-digit literal, whitespace or the end --
greedy digit consumption without backtracking coincides with the regexes
CPython's `_strptime` builds.) -/
inductive FTok where
  | bigMonth : FTok
  | dayNum : FTok
  | monthNum : FTok
  | year4 : FTok
  | lit : Char → FTok
  | ws : FTok
deriving DecidableEq, Repr

/-- Full month names recognised by `%B` (C locale), matched
case-insensitively. -/
def monthNames : List (List Char × Nat) :=
  [("january".toList, 1), ("february".toList, 2), ("march".toList, 3),
   ("april".toList, 4), ("may".toList, 5), ("june".toList, 6),
   ("july".toList, 7), ("august".toList, 8), ("september".toList, 9),
   ("october".toList, 10), ("november".toList, 11), ("december".toList, 12)]

/-- Match a full month name at the head of `s`, case-insensitively. -/
def matchMonth (s : List Char) : Option (Nat × List Char) :=
  monthNames.findSome? fun (name, m) =>
    if leadsWith name (lowerL s) then some (m, s.drop name.length) else none

/-- Take up to `n` leading decimal digits. -/
def takeDigits : Nat → List Char → List Char × List Char
  | 0, s => ([], s)
  | _ + 1, [] => ([], [])
  | n + 1, c :: cs =>
    if c.isDigit then
      let (ds, r) := takeDigits n cs
      (c :: ds, r)
    else ([], c :: cs)

/-- Numeric value of a digit string. -/
def digitsToNat (ds : List Char) : Nat :=
  ds.foldl (fun a c => a * 10 + (c.toNat - 48)) 0

/-- Run a format against an input; the whole input must be consumed
(CPython raises unless the regex match spans the full string).  The
accumulator starts from `strptime`'s defaults (1900, 1, 1). -/
def runFmt : List FTok → Nat × Nat × Nat → List Char → Option (Nat × Nat × Nat)
  | [], acc, [] => some acc
  | [], _, _ :: _ => none
  | .ws :: ts, acc, c :: cs =>
    if isPySpace c then runFmt ts acc (cs.dropWhile isPySpace) else none
  | .ws :: _, _, [] => none
  | .lit c :: ts, acc, x :: xs =>
    if lowerChar x = lowerChar c then runFmt ts acc xs else none
  | .lit _ :: _, _, [] => none
  | .bigMonth :: ts, (y, _, d), s =>
    match matchMonth s with
    | some (m, r) => runFmt ts (y, m, d) r
    | none => none
  | .dayNum :: ts, (y, m, _), s =>
    match takeDigits 2 s with
    | ([], _) => none
    | (d :: ds, r) => runFmt ts (y, m, digitsToNat (d :: ds)) r
  | .monthNum :: ts, (y, _, d), s =>
    match takeDigits 2 s with
    | ([], _) => none
    | (m :: ms, r) => runFmt ts (y, digitsToNat (m :: ms), d) r
  | .year4 :: ts, (_, m, d), s =>
    let (ds, r) := takeDigits 4 s
    if ds.length = 4 then runFmt ts (digitsToNat ds, m, d) r else none

/-- The format list of `parse_date` (lines 229-242), in order, duplicates
included: `%B %d, %Y` (twice), `%B %dst, %Y`, `%B %dnd, %Y`, `%B %drd, %Y`,
`%B %dth, %Y`, `%Y-%m-%d`, `%m/%d/%Y`, `%d/%m/%Y`, `%m-%d-%Y`, `%d-%m-%Y`,
`%Y/%m/%d`. -/
def formats : List (List FTok) :=
  let bdy : List FTok := [.bigMonth, .ws, .dayNum, .lit ',', .ws, .year4]
  let suffixed (a b : Char) : List FTok :=
    [.bigMonth, .ws, .dayNum, .lit a, .lit b, .lit ',', .ws, .year4]
  [bdy, bdy,
   suffixed 's' 't', suffixed 'n' 'd', suffixed 'r' 'd', suffixed 't' 'h',
   [.year4, .lit '-', .monthNum, .lit '-', .dayNum],
   [.monthNum, .lit '/', .dayNum, .lit '/', .year4],
   [.dayNum, .lit '/', .monthNum, .lit '/', .year4],
   [.monthNum, .lit '-', .dayNum, .lit '-', .year4],
   [.dayNum, .lit '-', .monthNum, .lit '-', .year4],
   [.year4, .lit '/', .monthNum, .lit '/', .dayNum]]

/-- One `datetime.strptime(date_string, fmt)` attempt: run the format, then
validate the triple the way the `datetime` constructor does. -/
def tryFormat (ft : List FTok) (s : List Char) : Option Date :=
  match runFmt ft (1900, 1, 1) s with
  | some (y, m, d) => if validDate y m d then some ⟨y, m, d⟩ else none
  | none => none

/-- `TariffAnalyzer.parse_date` (lines 223-254): empty string gives `None`;
otherwise strip and try each format in order, returning the first success or
`None`. -/
def parse_date (date_string : String) : Option Date :=
  if date_string = "" then none
  else
    let s := stripL date_string.toList
    formats.findSome? (tryFormat · s)

/-- `TariffAnalyzer.is_date_valid` (lines 256-261): parse failure is `False`;
otherwise accept iff the parsed date is on or after `min_update_date`. -/
def is_date_valid (date_string : String) : Bool :=
  match parse_date date_string with
  | none => false
  | some d => dateLe min_update_date d

/-- C8 -- Recency boundary: a date string parsing exactly to the threshold
(April 2, 2025) is accepted, one parsing one day earlier (April 1, 2025) is
rejected, and a string no accepted format parses is rejected with `False`
returned (no exception). -/
theorem is_date_valid_boundary (s : String) :
    (parse_date s = some ⟨2025, 4, 2⟩ → is_date_valid s = true) ∧
    (parse_date s = some ⟨2025, 4, 1⟩ → is_date_valid s = false) ∧
    (parse_date s = none → is_date_valid s = false) := by
  refine ⟨fun h => ?_, fun h => ?_, fun h => ?_⟩ <;>
    simp only [is_date_valid, h] <;> rfl

/-- Witness for C8 at concrete inputs: `"2025-04-02"` is on the threshold and
accepted, `"2025-04-01"` is one day earlier and rejected, `"not a date"`
parses under no format and is rejected. -/
theorem is_date_valid_boundary_witness :
    is_date_valid "2025-04-02" = true ∧
    is_date_valid "2025-04-01" = false ∧
    is_date_valid "not a date" = false :=
  ⟨(is_date_valid_boundary "2025-04-02").1 (by decide),
   (is_date_valid_boundary "2025-04-01").2.1 (by decide),
   (is_date_valid_boundary "not a date").2.2 (by decide)⟩

/-- Sources excluded by `extract_source_names` (lines 136-139). -/
def excluded_sources : List String :=
  ["wikipedia", "itvx", "alcircle", "trade war news",
   "profit by pakistan today", "business and economy news"]

/-- Known-source substring table of `extract_source_names` (lines 170-196),
in order (first match wins). -/
def known_sources : List (String × String) :=
  [("bbc", "BBC"), ("cnn", "CNN"), ("reuters", "Reuters"),
   ("bloomberg", "Bloomberg"), ("politico", "Politico"), ("pbs", "PBS"),
   ("npr", "NPR"), ("wall street journal", "Wall Street Journal"),
   ("financial times", "Financial Times"), ("washington post", "Washington Post"),
   ("new york times", "New York Times"), ("al jazeera", "Al Jazeera"),
   ("associated press", "Associated Press"), ("ap news", "Associated Press"),
   ("white house", "White House"), ("whitehouse.gov", "White House"),
   ("ustr.gov", "US Trade Representative"),
   ("us trade representative", "US Trade Representative"),
   ("department of commerce", "Department of Commerce"),
   ("treasury department", "Treasury Department"),
   ("cbp.gov", "Customs and Border Protection"),
   ("customs and border protection", "Customs and Border Protection"),
   ("sec.gov", "Securities and Exchange Commission"),
   ("ftc.gov", "Federal Trade Commission"),
   ("trade.gov", "Department of Commerce")]

/-- The contribution of a single title to `extract_source_names`
(lines 142-219): split on `" - "` / `" | "` taking the trailing segment
(dropped when its lower-casing is one of `excluded_sources`), otherwise scan
the known-source table by case-insensitive substring; titles matching no rule
contribute nothing (the article-headline heuristics at lines 206-219 only
control logging). -/
def extractFromTitle (title : String) : Option String :=
  if title = "" then none
  else if strHas title " - " then
    let source := strip ((splitOnS title " - ").getLastD "")
    if lower source ∈ excluded_sources then none else some source
  else if strHas title " | " then
    let source := strip ((splitOnS title " | ").getLastD "")
    if lower source ∈ excluded_sources then none else some source
  else
    let tl := lower title
    if excluded_sources.any (fun e => strHas tl e) then none
    else
      known_sources.findSome? fun tp =>
        if strHas tl tp.1 then some tp.2 else none

/-- `TariffAnalyzer.extract_source_names` (lines 133-221). -/
def extract_source_names (source_titles : List String) : List String :=
  source_titles.filterMap extractFromTitle

/-- The high-quality subset consulted for single-source candidates
(lines 300-304). -/
def high_quality_sources : List String :=
  ["reuters", "bloomberg", "wall street journal", "financial times",
   "white house", "us trade representative", "department of commerce",
   "bbc", "cnn", "associated press"]

/-- The single-source check at line 306: some high-quality marker is a
substring of the lower-cased extracted name. -/
def isHighQuality (name : String) : Bool :=
  high_quality_sources.any (fun q => strHas (lower name) q)

/-- A candidate update as consulted by `validate_multiple_sources`: its
`source_titles` list (the `title` is only printed). -/
structure Update where
  title : String
  source_titles : List String
deriving DecidableEq, Repr

/-- `TariffAnalyzer.validate_multiple_sources` (lines 285-312): no titles or
no extracted names rejects; exactly one extracted name passes only when it is
high-quality; two or more extracted names pass. -/
def validate_multiple_sources (u : Update) : Bool :=
  if u.source_titles.length < 1 then false
  else if (extract_source_names u.source_titles).length < 1 then false
  else if (extract_source_names u.source_titles).length = 1 then
    isHighQuality ((extract_source_names u.source_titles).getD 0 "")
  else true

theorem extract_le_titles (ts : List String) :
    (extract_source_names ts).length ≤ ts.length :=
  List.length_filterMap_le extractFromTitle ts

/-- C9 -- Single-citation source gating: with exactly one extracted source
name the candidate passes iff that name matches the high-quality subset
(case-insensitive substring match); with two or more surviving citations it
always passes; with no surviving citation it is always rejected. -/
theorem validate_single_source_gating (u : Update) :
    (∀ name, extract_source_names u.source_titles = [name] →
      (validate_multiple_sources u = true ↔ isHighQuality name = true)) ∧
    (2 ≤ (extract_source_names u.source_titles).length →
      validate_multiple_sources u = true) ∧
    (extract_source_names u.source_titles = [] →
      validate_multiple_sources u = false) := by
  refine ⟨fun name h => ?_, fun h => ?_, fun h => ?_⟩
  · have hfm := extract_le_titles u.source_titles
    rw [h] at hfm
    have hlen : ¬ u.source_titles.length < 1 := by
      simp only [List.length_cons, List.length_nil] at hfm
      omega
    simp [validate_multiple_sources, hlen, h]
  · have hfm := extract_le_titles u.source_titles
    have hlen : ¬ u.source_titles.length < 1 := by omega
    have h2 : ¬ (extract_source_names u.source_titles).length < 1 := by omega
    have h3 : ¬ (extract_source_names u.source_titles).length = 1 := by omega
    simp [validate_multiple_sources, hlen, h2, h3]
  · by_cases ht : u.source_titles.length < 1
    · simp [validate_multiple_sources, ht]
    · simp [validate_multiple_sources, ht, h]

/-- Witness for C9: the single title `"Tariff Shift - Global Tariff Blog"`
survives extraction as `"Global Tariff Blog"`, which is not high-quality, so
the candidate is rejected; `"Steel Caps - Reuters"` alone is high-quality and
passes; adding a second surviving citation to the low-tier one makes it pass;
an update with no surviving citation is rejected. -/
theorem validate_single_source_gating_witness :
    validate_multiple_sources ⟨"u1", ["Tariff Shift - Global Tariff Blog"]⟩ = false ∧
    validate_multiple_sources ⟨"u2", ["Steel Caps - Reuters"]⟩ = true ∧
    validate_multiple_sources
      ⟨"u3", ["Tariff Shift - Global Tariff Blog", "Steel Caps - Reuters"]⟩ = true ∧
    validate_multiple_sources ⟨"u4", ["wikipedia tariffs"]⟩ = false := by
  refine ⟨?_, ?_, ?_, ?_⟩
  · have h := ((validate_single_source_gating
      ⟨"u1", ["Tariff Shift - Global Tariff Blog"]⟩).1 "Global Tariff Blog" (by decide))
    have : ¬ isHighQuality "Global Tariff Blog" = true := by decide
    exact Bool.eq_false_iff.mpr fun hv => this (h.mp hv)
  · exact ((validate_single_source_gating
      ⟨"u2", ["Steel Caps - Reuters"]⟩).1 "Reuters" (by decide)).mpr (by decide)
  · exact (validate_single_source_gating
      ⟨"u3", ["Tariff Shift - Global Tariff Blog", "Steel Caps - Reuters"]⟩).2.1 (by decide)
  · exact (validate_single_source_gating ⟨"u4", ["wikipedia tariffs"]⟩).2.2 (by decide)

/-- C10 -- Implicit multi-source acceptance: whenever two or more source
names are extracted, `validate_multiple_sources` returns `True` with no check
of those names against the high-quality or known-source sets. -/
theorem validate_two_names_unchecked (u : Update) :
    2 ≤ (extract_source_names u.source_titles).length →
      validate_multiple_sources u = true := by
  intro h
  have hfm := extract_le_titles u.source_titles
  have hlen : ¬ u.source_titles.length < 1 := by omega
  have h2 : ¬ (extract_source_names u.source_titles).length < 1 := by omega
  have h3 : ¬ (extract_source_names u.source_titles).length = 1 := by omega
  simp [validate_multiple_sources, hlen, h2, h3]

/-- Witness for C10: two citations that both parse to unknown outlets --
neither high-quality nor in the known-source table, but surviving the
excluded-sources denylist -- are accepted. -/
theorem validate_two_names_unchecked_witness :
    extract_source_names ["A - Foo Blog", "B - Bar Daily"] = ["Foo Blog", "Bar Daily"] ∧
    isHighQuality "Foo Blog" = false ∧ isHighQuality "Bar Daily" = false ∧
    (known_sources.map Prod.snd).contains "Foo Blog" = false ∧
    (known_sources.map Prod.snd).contains "Bar Daily" = false ∧
    validate_multiple_sources ⟨"u5", ["A - Foo Blog", "B - Bar Daily"]⟩ = true :=
  ⟨by decide, by decide, by decide, by decide, by decide,
   validate_two_names_unchecked ⟨"u5", ["A - Foo Blog", "B - Bar Daily"]⟩ (by decide)⟩

end TariffAnalyzer

namespace AffairsAI

/-! ## Selective enhancement pipeline
Model of `ForeignAffairsEnhancer` in `scripts/foreign_affairs/affairs_ai.py`.

JSON values handled by the code (field contents and objects returned by
`json.loads`) are modelled by the closed sum `PyVal`; dictionaries are
insertion-ordered association lists with unique keys, mirroring Python
dicts.  The `re.search(r'\x7b.*\x7d', ...)` plus `json.loads` boundary is
modelled by passing the raw response string (for the span/sentinel checks the
code performs on it) together with the parse outcome: `none` stands for
`json.loads` raising (caught by the surrounding `except`), `some obj` for a
successfully parsed object. -/

open Ink

/-- Model of the JSON/Python values the enhancement code manipulates. -/
inductive PyVal where
  | str : String → PyVal
  | int : Int → PyVal
  | bool : Bool → PyVal
  | none : PyVal
  | list : List PyVal → PyVal
  | dict : List (String × PyVal) → PyVal
deriving Repr

mutual

/-- Structural equality: model of Python `==` on parsed-JSON values. -/
def pyEq : PyVal → PyVal → Bool
  | .str a, .str b => a == b
  | .int a, .int b => a == b
  | .bool a, .bool b => a == b
  | .none, .none => true
  | .list as, .list bs => pyEqL as bs
  | .dict as, .dict bs => pyEqD as bs
  | _, _ => false

/-- `pyEq` on lists. -/
def pyEqL : List PyVal → List PyVal → Bool
  | [], [] => true
  | a :: as, b :: bs => pyEq a b && pyEqL as bs
  | _, _ => false

/-- `pyEq` on dictionaries (association lists). -/
def pyEqD : List (String × PyVal) → List (String × PyVal) → Bool
  | [], [] => true
  | (k, a) :: as, (k2, b) :: bs => k == k2 && pyEq a b && pyEqD as bs
  | _, _ => false

end

/-- Python `d.get(key)` on an insertion-ordered dict. -/
def dictGet? : List (String × PyVal) → String → Option PyVal
  | [], _ => Option.none
  | (k, v) :: rest, key => if k == key then some v else dictGet? rest key

/-- Python `d.get(key, default)`. -/
def dictGetD (d : List (String × PyVal)) (key : String) (dflt : PyVal) : PyVal :=
  (dictGet? d key).getD dflt

/-- Python `key in d`. -/
def dictHas (d : List (String × PyVal)) (key : String) : Bool :=
  (dictGet? d key).isSome

/-- Python `d[key] = v`: overwrite in place, else append. -/
def dictSet : List (String × PyVal) → String → PyVal → List (String × PyVal)
  | [], key, v => [(key, v)]
  | (k, w) :: rest, key, v =>
    if k == key then (k, v) :: rest else (k, w) :: dictSet rest key v

/-- Python `del d[key]` (no effect when the key is absent, matching the
guarded `if key in d: del d[key]` uses in the code). -/
def dictDel : List (String × PyVal) → String → List (String × PyVal)
  | [], _ => []
  | (k, w) :: rest, key => if k == key then rest else (k, w) :: dictDel rest key

/-- Python truthiness of the values that occur as field contents. -/
def pyTruthy : PyVal → Bool
  | .str s => s != ""
  | .int n => n != 0
  | .bool b => b
  | .none => false
  | .list xs => !xs.isEmpty
  | .dict kvs => !kvs.isEmpty

/-- Python `len(...)` where defined (`none` models a `TypeError`). -/
def pyLen : PyVal → Option Nat
  | .str s => some s.length
  | .list xs => some xs.length
  | .dict kvs => some kvs.length
  | _ => Option.none

mutual

/-- Model of Python `repr` for these values (used by `str()` inside
f-strings for non-string values; quote/escape minutiae are irrelevant to the
verified properties, which only exercise the string case of `pyStr`). -/
def pyRepr : PyVal → String
  | .str s => Char.toString (Char.ofNat 39) ++ s ++ Char.toString (Char.ofNat 39)
  | .int n => toString n
  | .bool b => if b then "True" else "False"
  | .none => "None"
  | .list xs => "[" ++ pyReprL xs ++ "]"
  | .dict kvs => "\x7b" ++ pyReprD kvs ++ "\x7d"

/-- Comma-joined `repr`s of list elements. -/
def pyReprL : List PyVal → String
  | [] => ""
  | [x] => pyRepr x
  | x :: y :: rest => pyRepr x ++ ", " ++ pyReprL (y :: rest)

/-- Comma-joined `repr`s of dict entries. -/
def pyReprD : List (String × PyVal) → String
  | [] => ""
  | [(k, v)] => Char.toString (Char.ofNat 39) ++ k ++ Char.toString (Char.ofNat 39) ++ ": " ++ pyRepr v
  | (k, v) :: e :: rest =>
    Char.toString (Char.ofNat 39) ++ k ++ Char.toString (Char.ofNat 39) ++ ": " ++ pyRepr v ++
      ", " ++ pyReprD (e :: rest)

end

/-- Python `str(v)` / f-string interpolation of `v`. -/
def pyStr : PyVal → String
  | .str s => s
  | v => pyRepr v

/-- The literal sentinel recognised throughout the pipeline. -/
def SENTINEL : String := "NO UPDATE NEEDED"

/-- `re.search(r'\x7b.*\x7d', response, re.DOTALL)` finds a match iff some
opening brace is followed, somewhere later, by a closing brace. -/
def hasJsonSpan (s : List Char) : Bool :=
  match s.dropWhile (· ≠ Char.ofNat 123) with
  | [] => false
  | _ :: rest => rest.contains (Char.ofNat 125)

/-- `current_section_data.copy() if isinstance(current_section_data, dict)
else \x7b\x7d` (lines 730 and 1266). -/
def toDict : PyVal → List (String × PyVal)
  | .dict d => d
  | _ => []

/-- Drop `future_outlook` when handling `challenges_and_opportunities`
(applied to both the parsed object and the working copy; lines 724-735 and
1261-1270). -/
def stripFutureOutlook (section_name : String) (d : List (String × PyVal)) :
    List (String × PyVal) :=
  if section_name == "challenges_and_opportunities" then dictDel d "future_outlook" else d

/-- Placeholder test of `enhance_section_selectively` (lines 742-753): a
string that is the sentinel once stripped, a string containing
`"Keep existing value"` or `"Only update if"`, or a one-element list whose
string element contains `"Keep existing array"` or `"Only modify if"`. -/
def enhancePlaceholder : PyVal → Bool
  | .str s => strip s == SENTINEL || (strHas s "Keep existing value" || strHas s "Only update if")
  | .list [PyVal.str s] => strHas s "Keep existing array" || strHas s "Only modify if"
  | _ => false

/-- The key-merging loop of `enhance_section_selectively` (lines 740-762):
skip placeholders, overwrite a key only when the candidate value differs from
the current one (`merged_section.get(key, "NOT_PRESENT") != value`), flagging
`changes_made`. -/
def enhanceMerge (merged : List (String × PyVal)) (changes : Bool) :
    List (String × PyVal) → List (String × PyVal) × Bool
  | [] => (merged, changes)
  | (k, v) :: rest =>
    if enhancePlaceholder v then enhanceMerge merged changes rest
    else if pyEq (dictGetD merged k (.str "NOT_PRESENT")) v then enhanceMerge merged changes rest
    else enhanceMerge (dictSet merged k v) true rest

/-- `ForeignAffairsEnhancer.enhance_section_selectively` (lines 683-784),
as a function of the section name, the current content, the raw oracle
response and the `json.loads` outcome for its brace span. -/
def enhance_section_selectively (section_name : String) (current : PyVal)
    (raw : String) (loads : Option (List (String × PyVal))) : PyVal × String :=
  if section_name == "detailed_relationship_summary" then
    if strip raw == SENTINEL ∨ (strCount raw SENTINEL = 1 ∧ (strip raw).length < 50) then
      (current, "NO_UPDATE_NEEDED")
    else if strip raw ≠ "" ∧ (strip raw).length > 50 then
      (.str (strip raw), "UPDATED")
    else (current, "ERROR")
  else if hasJsonSpan raw.toList = false then
    if strHas raw SENTINEL then (current, "NO_UPDATE_NEEDED") else (current, "ERROR")
  else
    match loads with
    | Option.none => (current, "ERROR")
    | some obj =>
      match enhanceMerge (stripFutureOutlook section_name (toDict current)) false
          (stripFutureOutlook section_name obj) with
      | (merged, true) => (.dict merged, "UPDATED")
      | (_, false) => (current, "NO_ACTUAL_CHANGES")

/-- Placeholder test of `force_section_update` (lines 1275-1280): the
stripped sentinel, or a string containing `"MUST update"` or
`"keep existing"`. -/
def forcePlaceholder : PyVal → Bool
  | .str s => strip s == SENTINEL || (strHas s "MUST update" || strHas s "keep existing")
  | _ => false

/-- The key-merging loop of `force_section_update` (lines 1272-1286). -/
def forceMerge (merged : List (String × PyVal)) (changes : Bool) :
    List (String × PyVal) → List (String × PyVal) × Bool
  | [] => (merged, changes)
  | (k, v) :: rest =>
    if forcePlaceholder v then forceMerge merged changes rest
    else if pyEq (dictGetD merged k (.str "NOT_PRESENT")) v then forceMerge merged changes rest
    else forceMerge (dictSet merged k v) true rest

/-- The manual fallback of `force_section_update` (lines 1290-1305): append
the development string to the first present key among
`recent_high_level_visits`, `trade_agreements`, `defense_agreements`
(string concatenation then `strip`), or push `"Related to: ..."` onto a
`current_challenges` list; when none of those keys is present (or
`current_challenges` is not a list) the dict is returned unchanged. -/
def applyFallback (m : List (String × PyVal)) (dev : String) : List (String × PyVal) :=
  if dictHas m "recent_high_level_visits" then
    dictSet m "recent_high_level_visits"
      (.str (strip (pyStr (dictGetD m "recent_high_level_visits" (.str "")) ++ " " ++ dev)))
  else if dictHas m "trade_agreements" then
    dictSet m "trade_agreements"
      (.str (strip (pyStr (dictGetD m "trade_agreements" (.str "")) ++ " " ++ dev)))
  else if dictHas m "defense_agreements" then
    dictSet m "defense_agreements"
      (.str (strip (pyStr (dictGetD m "defense_agreements" (.str "")) ++ " " ++ dev)))
  else if dictHas m "current_challenges" then
    match dictGet? m "current_challenges" with
    | some (.list xs) =>
      dictSet m "current_challenges" (.list (xs ++ [.str ("Related to: " ++ dev)]))
    | _ => m
  else m

/-- `ForeignAffairsEnhancer.force_section_update` (lines 1129-1311), as a
function of the section name, current content, the staleness development
string, the raw oracle response and the `json.loads` outcome. -/
def force_section_update (section_name : String) (current : PyVal) (dev : String)
    (raw : String) (loads : Option (List (String × PyVal))) : PyVal × String :=
  if section_name == "detailed_relationship_summary" then
    if strip raw ≠ "" ∧ (strip raw).length > 50 then
      if pyEq (.str (strip raw)) current = false then (.str (strip raw), "FORCED_UPDATE")
      else (.str (pyStr current ++ " Recent developments include " ++ dev ++ "."), "FORCED_UPDATE")
    else (current, "FORCE_FAILED")
  else if hasJsonSpan raw.toList = false then (current, "FORCE_FAILED")
  else
    match loads with
    | Option.none => (current, "FORCE_FAILED")
    | some obj =>
      match forceMerge (stripFutureOutlook section_name (toDict current)) false
          (stripFutureOutlook section_name obj) with
      | (merged, true) => (.dict merged, "FORCED_UPDATE")
      | (merged, false) => (.dict (applyFallback merged dev), "FORCED_UPDATE")

/-- `force_section_update` only ever reports `FORCED_UPDATE` or
`FORCE_FAILED`. -/
theorem force_status_cases (section_name : String) (current : PyVal) (dev raw : String)
    (loads : Option (List (String × PyVal))) :
    (force_section_update section_name current dev raw loads).2 = "FORCED_UPDATE" ∨
    (force_section_update section_name current dev raw loads).2 = "FORCE_FAILED" := by
  unfold force_section_update
  split
  · split
    · split <;> simp
    · simp
  · split
    · simp
    · split
      · simp
      · split <;> simp

/-- C3 -- No silent data loss: whenever the Merger
(`enhance_section_selectively`) reports a status other than `UPDATED`, or the
Forced-Update Resolver (`force_section_update`) reports a status other than
`FORCED_UPDATE` (so `NO_UPDATE_NEEDED`, `NO_ACTUAL_CHANGES`, `ERROR` or
`FORCE_FAILED`), the content it returns is exactly the input content. -/
theorem no_silent_data_loss (section_name : String) (current : PyVal) (dev raw : String)
    (loads : Option (List (String × PyVal))) :
    (∀ out st, enhance_section_selectively section_name current raw loads = (out, st) →
      st ≠ "UPDATED" → out = current) ∧
    (∀ out st, force_section_update section_name current dev raw loads = (out, st) →
      st ≠ "FORCED_UPDATE" → out = current) := by
  constructor
  · intro out st h hne
    unfold enhance_section_selectively at h
    split at h
    · split at h
      · cases h; rfl
      · split at h
        · cases h; exact absurd rfl hne
        · cases h; rfl
    · split at h
      · split at h
        · cases h; rfl
        · cases h; rfl
      · split at h
        · cases h; rfl
        · split at h
          · cases h; exact absurd rfl hne
          · cases h; rfl
  · intro out st h hne
    unfold force_section_update at h
    split at h
    · split at h
      · split at h
        · cases h; exact absurd rfl hne
        · cases h; exact absurd rfl hne
      · cases h; rfl
    · split at h
      · cases h; rfl
      · split at h
        · cases h; rfl
        · split at h
          · cases h; exact absurd rfl hne
          · cases h; exact absurd rfl hne

/-- Witness for C3: a structured section whose oracle response contains no
JSON span yields `ERROR` from the Merger and `FORCE_FAILED` from the
Forced-Update Resolver, both returning the input dict unchanged. -/
theorem no_silent_data_loss_witness :
    (enhance_section_selectively "economic_cooperation"
      (PyVal.dict [("trade_volume", PyVal.str "high")]) "no span here" Option.none).1 =
      PyVal.dict [("trade_volume", PyVal.str "high")] ∧
    (force_section_update "economic_cooperation"
      (PyVal.dict [("trade_volume", PyVal.str "high")]) "dev" "no span here" Option.none).1 =
      PyVal.dict [("trade_volume", PyVal.str "high")] :=
  ⟨(no_silent_data_loss "economic_cooperation" (PyVal.dict [("trade_volume", PyVal.str "high")])
      "dev" "no span here" Option.none).1 _ "ERROR" rfl (by decide),
   (no_silent_data_loss "economic_cooperation" (PyVal.dict [("trade_volume", PyVal.str "high")])
      "dev" "no span here" Option.none).2 _ "FORCE_FAILED" rfl (by decide)⟩

/-- Counterexample to C4 as stated: when the second forced attempt yields no
diff and none of the designated default keys
(`recent_high_level_visits`, `trade_agreements`, `defense_agreements`,
`current_challenges`) is present, the code does not report `FORCE_FAILED`:
the fall-through at line 1305 returns the unchanged dict with status
`FORCED_UPDATE`. -/
theorem force_fallback_counterexample :
    force_section_update "economic_cooperation"
        (PyVal.dict [("trade_volume", PyVal.str "high")])
        "New pact signed" "\x7b\x7d" (some []) =
      (PyVal.dict [("trade_volume", PyVal.str "high")], "FORCED_UPDATE") ∧
    dictHas [("trade_volume", PyVal.str "high")] "recent_high_level_visits" = false ∧
    dictHas [("trade_volume", PyVal.str "high")] "trade_agreements" = false ∧
    dictHas [("trade_volume", PyVal.str "high")] "defense_agreements" = false ∧
    dictHas [("trade_volume", PyVal.str "high")] "current_challenges" = false ∧
    ("FORCED_UPDATE" : String) ≠ "FORCE_FAILED" :=
  ⟨rfl, by decide, by decide, by decide, by decide, by decide⟩

/-- C4 amended -- Forced-update fallback: when the second generation attempt
for a structured section yields no actual diff, the resolver appends the
development string to the first applicable designated default key and reports
`FORCED_UPDATE`; when no designated key is applicable the status is still
`FORCED_UPDATE` (not `FORCE_FAILED`) and the content is returned unchanged
(`FORCE_FAILED` arises only from a missing JSON span, a parse failure, or a
short text response). -/
theorem force_fallback_amended (section_name : String) (current : PyVal) (dev raw : String)
    (obj merged : List (String × PyVal))
    (hsec : (section_name == "detailed_relationship_summary") = false)
    (hspan : hasJsonSpan raw.toList = true)
    (hmerge : forceMerge (stripFutureOutlook section_name (toDict current)) false
        (stripFutureOutlook section_name obj) = (merged, false)) :
    force_section_update section_name current dev raw (some obj) =
      (.dict (applyFallback merged dev), "FORCED_UPDATE") ∧
    (dictHas merged "recent_high_level_visits" = false →
      dictHas merged "trade_agreements" = false →
      dictHas merged "defense_agreements" = false →
      dictHas merged "current_challenges" = false →
      applyFallback merged dev = merged) ∧
    (∀ s, dictGet? merged "recent_high_level_visits" = some (.str s) →
      applyFallback merged dev =
        dictSet merged "recent_high_level_visits" (.str (strip (s ++ " " ++ dev)))) := by
  refine ⟨?_, ?_, ?_⟩
  · have hspan2 : hasJsonSpan raw.data = true := hspan
    unfold force_section_update
    rw [if_neg (by simp [hsec]), if_neg (by simp [hspan2])]
    simp only [hmerge]
  · intro h1 h2 h3 h4
    unfold applyFallback
    rw [if_neg (by simp [h1]), if_neg (by simp [h2]), if_neg (by simp [h3]),
      if_neg (by simp [h4])]
  · intro s hget
    have hhas : dictHas merged "recent_high_level_visits" = true := by
      simp [dictHas, hget]
    unfold applyFallback
    rw [if_pos hhas]
    simp [dictGetD, hget, pyStr]

/-- Witness for C4 (amended): a section holding only
`recent_high_level_visits` whose forced JSON response parses to the empty
object gets the development string appended to that key with status
`FORCED_UPDATE`. -/
theorem force_fallback_amended_witness :
    force_section_update "economic_cooperation"
        (PyVal.dict [("recent_high_level_visits", PyVal.str "Old visit summary.")])
        "New pact signed" "\x7b\x7d" (some []) =
      (PyVal.dict [("recent_high_level_visits",
          PyVal.str "Old visit summary. New pact signed")], "FORCED_UPDATE") := by
  have h := force_fallback_amended "economic_cooperation"
    (PyVal.dict [("recent_high_level_visits", PyVal.str "Old visit summary.")])
    "New pact signed" "\x7b\x7d" []
    [("recent_high_level_visits", PyVal.str "Old visit summary.")]
    (by decide) (by decide) rfl
  rw [h.1, h.2.2 "Old visit summary." rfl]
  rfl

/-- The non-greedy capture `(.+?)` followed by one of `stops` (or, when
`allowEnd` is set, the end of the input): take the shortest non-empty run of
characters (any character, as under `re.DOTALL`) after which a stop
matches. -/
def grabUpTo (stops : List (List Char)) (allowEnd : Bool) : List Char → Option (List Char)
  | [] => Option.none
  | c :: rest =>
    if (allowEnd ∧ rest = []) ∨ stops.any (fun p => leadsWith p rest) then some [c]
    else (grabUpTo stops allowEnd rest).map (c :: ·)

/-- `re.search` for a pattern `tag(.+?)(?:stop...)`: at the leftmost position
where `tag` occurs and a capture up to a stop succeeds, return the capture. -/
def searchAfterTag (tag : List Char) (stops : List (List Char)) (allowEnd : Bool) :
    List Char → Option (List Char)
  | [] => Option.none
  | c :: rest =>
    (if leadsWith tag (c :: rest) then grabUpTo stops allowEnd ((c :: rest).drop tag.length)
     else Option.none).orElse
      (fun _ => searchAfterTag tag stops allowEnd rest)

/-- `re.search(r'REASONING: (.+?)(?:\n|NEW_DEVELOPMENTS:)', response,
re.DOTALL)`, stripped, with the branch-specific default on no match
(lines 301-302 and 312-313). -/
def reasoningOf (response dflt : String) : String :=
  match searchAfterTag "REASONING: ".toList ["\n".toList, "NEW_DEVELOPMENTS:".toList]
      false response.toList with
  | some t => ⟨stripL t⟩
  | Option.none => dflt

/-- `re.search(r'NEW_DEVELOPMENTS: (.+?)(?:\n|$)', response, re.DOTALL)`,
stripped, defaulting to `"New developments found"` (lines 305-306). -/
def developmentsOf (response : String) : String :=
  match searchAfterTag "NEW_DEVELOPMENTS: ".toList ["\n".toList] true response.toList with
  | some t => ⟨stripL t⟩
  | Option.none => "New developments found"

/-- The response-marker parsing of `analyze_section_needs_update`
(lines 300-319): `"UPDATE NEEDED"`/`"UPDATE_NEEDED"` in the upper-cased
response wins first, then `"NO_UPDATE"`/`"NO UPDATE"`, else the conservative
default. -/
def parseAnalysisResponse (response : String) : Bool × String × String :=
  if strHas (upper response) "UPDATE NEEDED" ∨ strHas (upper response) "UPDATE_NEEDED" then
    (true, reasoningOf response "Analysis indicates update needed", developmentsOf response)
  else if strHas (upper response) "NO_UPDATE" ∨ strHas (upper response) "NO UPDATE" then
    (false, reasoningOf response "No significant changes found", "None")
  else
    (false, "AI response unclear - assuming no update needed", "None")

/-- `ForeignAffairsEnhancer.analyze_section_needs_update` (lines 196-323) as
a function of the truthiness of `existing_data`, the country's record
(`bilateral_data`), the section name and the oracle response.  The
last-enhancement-date handling (lines 206-216) and the diplomatic-feeds
context only shape the prompt text and are omitted.  `Option.none` models an
uncaught `TypeError`/`AttributeError` from `len`/`strip` on a value of an
unexpected shape (those lines sit outside the `try` that guards the oracle
call). -/
def analyze_section_needs_update (existingDataPresent : Bool)
    (bilateral : List (String × PyVal)) (section_name : String) (response : String) :
    Option (Bool × String × String) :=
  if existingDataPresent = false then some (true, "No existing data available", "")
  else if section_name == "detailed_relationship_summary" then
    match dictGetD bilateral section_name (.str "") with
    | .str s =>
      if s == "" ∨ (stripL s.toList).length < 50 then
        some (true, "Summary is empty or too short - needs enhancement", "")
      else some (parseAnalysisResponse response)
    | _ => Option.none
  else
    match dictGetD bilateral section_name (.dict []) with
    | sd =>
      if pyTruthy sd = false then
        some (true, "Section is empty or has minimal data - needs enhancement", "")
      else
        match pyLen sd with
        | some n =>
          if n ≤ 2 then
            some (true, "Section is empty or has minimal data - needs enhancement", "")
          else some (parseAnalysisResponse response)
        | Option.none => Option.none

/-- Counterexample to C5 as stated: the response `"DECISION: NO UPDATE
NEEDED"` carries the `NO UPDATE` marker (as a substring, which is all the
code ever checks), yet the detector returns NEEDS_UPDATE, because the
`"UPDATE NEEDED"` substring check comes first and `"NO UPDATE NEEDED"`
contains `"UPDATE NEEDED"`. -/
theorem staleness_marker_counterexample :
    strHas (upper "DECISION: NO UPDATE NEEDED") "NO UPDATE" = true ∧
    (parseAnalysisResponse "DECISION: NO UPDATE NEEDED").1 = true := by
  constructor
  · decide
  · decide

/-- C5 amended -- Staleness marker parsing: the detector returns NEEDS_UPDATE
iff the upper-cased response contains `"UPDATE NEEDED"` or `"UPDATE_NEEDED"`
(this check takes precedence over the NO-UPDATE markers); in every other
case, including an ambiguous or missing marker, it returns NO_UPDATE, and
when no marker at all is present it returns the conservative default
reason. -/
theorem staleness_marker_amended (response : String) :
    ((parseAnalysisResponse response).1 = true ↔
      (strHas (upper response) "UPDATE NEEDED" = true ∨
       strHas (upper response) "UPDATE_NEEDED" = true)) ∧
    (strHas (upper response) "UPDATE NEEDED" = false →
     strHas (upper response) "UPDATE_NEEDED" = false →
     strHas (upper response) "NO_UPDATE" = false →
     strHas (upper response) "NO UPDATE" = false →
      parseAnalysisResponse response =
        (false, "AI response unclear - assuming no update needed", "None")) := by
  constructor
  · unfold parseAnalysisResponse
    by_cases h : strHas (upper response) "UPDATE NEEDED" = true ∨
        strHas (upper response) "UPDATE_NEEDED" = true
    · rw [if_pos h]
      simpa using h
    · rw [if_neg h]
      split <;> simpa using h
  · intro h1 h2 h3 h4
    unfold parseAnalysisResponse
    rw [if_neg (by simp [h1, h2]), if_neg (by simp [h3, h4])]

/-- Witness for C5 (amended): `"DECISION: UPDATE NEEDED"` triggers
NEEDS_UPDATE, `"DECISION: NO UPDATE"` does not, and `"hello"` (no marker)
yields the conservative default. -/
theorem staleness_marker_amended_witness :
    (parseAnalysisResponse "DECISION: UPDATE NEEDED").1 = true ∧
    (parseAnalysisResponse "DECISION: NO UPDATE").1 = false ∧
    parseAnalysisResponse "hello" =
      (false, "AI response unclear - assuming no update needed", "None") :=
  ⟨(staleness_marker_amended "DECISION: UPDATE NEEDED").1.mpr (Or.inl (by decide)),
   by
    have h := (staleness_marker_amended "DECISION: NO UPDATE").1
    have : ¬ (strHas (upper "DECISION: NO UPDATE") "UPDATE NEEDED" = true ∨
        strHas (upper "DECISION: NO UPDATE") "UPDATE_NEEDED" = true) := by decide
    exact Bool.eq_false_iff.mpr fun hv => this (h.mp hv),
   (staleness_marker_amended "hello").2 (by decide) (by decide) (by decide) (by decide)⟩

/-- Counterexample to C6 as stated: for record `"DEU"` with
`economic_cooperation = \x7b\x7d` the detector does return NEEDS_UPDATE with
no oracle dependence, but the reason is the literal
`"Section is empty or has minimal data - needs enhancement"`, not
`"insufficient existing data"`. -/
theorem structural_staleness_counterexample :
    (∀ response : String,
      analyze_section_needs_update true [("economic_cooperation", PyVal.dict [])]
        "economic_cooperation" response =
        some (true, "Section is empty or has minimal data - needs enhancement", "")) ∧
    ("Section is empty or has minimal data - needs enhancement" : String) ≠
      "insufficient existing data" :=
  ⟨fun _ => rfl, by decide⟩

/-- C6 amended -- Structural staleness rule: if a structured field is absent
or not truthy or has at most 2 keys, the detector immediately returns
NEEDS_UPDATE with reason
`"Section is empty or has minimal data - needs enhancement"`, and for the
text section with stripped length below 50 it returns
`"Summary is empty or too short - needs enhancement"`; in both cases the
result is the same for every oracle response (no oracle call is made). -/
theorem structural_staleness_amended (bilateral : List (String × PyVal))
    (section_name response : String) :
    ((section_name == "detailed_relationship_summary") = false →
      ∀ d, dictGetD bilateral section_name (.dict []) = PyVal.dict d → d.length ≤ 2 →
        analyze_section_needs_update true bilateral section_name response =
          some (true, "Section is empty or has minimal data - needs enhancement", "")) ∧
    ((section_name == "detailed_relationship_summary") = true →
      ∀ s, dictGetD bilateral section_name (.str "") = PyVal.str s →
        (stripL s.toList).length < 50 →
        analyze_section_needs_update true bilateral section_name response =
          some (true, "Summary is empty or too short - needs enhancement", "")) := by
  constructor
  · intro hsec d hget hlen
    unfold analyze_section_needs_update
    rw [if_neg (by simp), if_neg (by simp [hsec]), hget]
    by_cases hd : d.isEmpty
    · rw [if_pos (by simp [pyTruthy, hd])]
    · rw [if_neg (by simp [pyTruthy, hd])]
      simp only [pyLen]
      rw [if_pos hlen]
  · intro hsec s hget hlen
    unfold analyze_section_needs_update
    rw [if_neg (by simp), if_pos hsec, hget]
    exact if_pos (Or.inr hlen)

/-- Witness for C6 (amended): the spec scenario -- record `"DEU"` with an
empty `economic_cooperation` dict -- triggers the structural rule for any two
distinct responses, and an under-50-character summary triggers the text
rule. -/
theorem structural_staleness_amended_witness :
    analyze_section_needs_update true [("economic_cooperation", PyVal.dict [])]
        "economic_cooperation" "IGNORED RESPONSE A" =
      some (true, "Section is empty or has minimal data - needs enhancement", "") ∧
    analyze_section_needs_update true [("economic_cooperation", PyVal.dict [])]
        "economic_cooperation" "IGNORED RESPONSE B" =
      some (true, "Section is empty or has minimal data - needs enhancement", "") ∧
    analyze_section_needs_update true
        [("detailed_relationship_summary", PyVal.str "   short summary   ")]
        "detailed_relationship_summary" "IGNORED RESPONSE A" =
      some (true, "Summary is empty or too short - needs enhancement", "") :=
  ⟨(structural_staleness_amended [("economic_cooperation", PyVal.dict [])]
      "economic_cooperation" "IGNORED RESPONSE A").1 (by decide) [] rfl (by decide),
   (structural_staleness_amended [("economic_cooperation", PyVal.dict [])]
      "economic_cooperation" "IGNORED RESPONSE B").1 (by decide) [] rfl (by decide),
   (structural_staleness_amended
      [("detailed_relationship_summary", PyVal.str "   short summary   ")]
      "detailed_relationship_summary" "IGNORED RESPONSE A").2 (by decide)
      "   short summary   " rfl (by decide)⟩

/-! ### The selective-enhancement orchestrator
`enhance_bilateral_relations_selective` (lines 786-880).  The per-field
environment supplies what the external world feeds each loop iteration: the
staleness analysis outcome, the operator's answer at the Approval Gate, and
the oracle responses consumed by the Merger and by the Forced-Update
Resolver. -/

/-- Operator answer returned by `ask_user_permission` (lines 325-348):
`True`, `False`, or the string `'skip_all'`. -/
inductive Perm where
  | grant : Perm
  | deny : Perm
  | skipAll : Perm
deriving DecidableEq, Repr

/-- External inputs consumed for one (record, section) pair. -/
structure FieldEnv where
  needs_update : Bool
  developments : String
  perm : Perm
  enhanceRaw : String
  enhanceLoads : Option (List (String × PyVal))
  forceRaw : String
  forceLoads : Option (List (String × PyVal))
deriving Repr

/-- One `log_section_changes` record: country, section and status. -/
structure LogEntry where
  country : String
  sect : String
  status : String
deriving DecidableEq, Repr

/-- `self.sensitive_fields` (lines 44-50). -/
def sensitive_fields : List String :=
  ["security_cooperation", "diplomatic_engagement", "economic_cooperation",
   "challenges_and_opportunities", "detailed_relationship_summary"]

/-- The inner section loop (lines 819-868) for one country: threads the
`skip_all` flag, and produces the flag, the change log, the list of
(country, section) pairs for which the operator was prompted, and the
updated country data (`updated_country_data`).  The `break` on a set
`skip_all` flag (lines 820-821) ends the loop before anything is logged, and
a `'skip_all'` answer (lines 835-838) sets the flag and breaks, equally
before logging. -/
def processSections (country : String) (cur : List (String × PyVal)) :
    List (String × FieldEnv) → Bool → List (String × PyVal) →
      Bool × List LogEntry × List (String × String) × List (String × PyVal)
  | [], skipAll, acc => (skipAll, [], [], acc)
  | (name, e) :: rest, skipAll, acc =>
    if skipAll then (skipAll, [], [], acc)
    else if e.needs_update then
      match e.perm with
      | .skipAll => (true, [], [(country, name)], acc)
      | .grant =>
        let r0 := enhance_section_selectively name (dictGetD cur name (.dict []))
          e.enhanceRaw e.enhanceLoads
        let r :=
          if r0.2 == "NO_ACTUAL_CHANGES" then
            force_section_update name (dictGetD cur name (.dict []))
              e.developments e.forceRaw e.forceLoads
          else r0
        let acc2 :=
          if r.2 == "UPDATED" ∨ r.2 == "FORCED_UPDATE" then dictSet acc name r.1 else acc
        let t := processSections country cur rest skipAll acc2
        (t.1, ⟨country, name, r.2⟩ :: t.2.1, (country, name) :: t.2.2.1, t.2.2.2)
      | .deny =>
        let t := processSections country cur rest skipAll acc
        (t.1, ⟨country, name, "SKIPPED"⟩ :: t.2.1, (country, name) :: t.2.2.1, t.2.2.2)
    else
      let t := processSections country cur rest skipAll acc
      (t.1, ⟨country, name, "NO_CHANGE_NEEDED"⟩ :: t.2.1, t.2.2.1, t.2.2.2)

/-- Per-country inputs for the outer loop: whether the country code occurs in
the source `bilateral_relations`, the existing enhanced data
(`enhanced_relations.get(code, \x7b\x7d)`), and the per-section
environments (paired positionally with `sensitive_fields`). -/
structure CountryEnv where
  code : String
  inSource : Bool
  currentEnhanced : List (String × PyVal)
  fields : List FieldEnv
deriving Repr

/-- The outer country loop (lines 795-878), keeping the observable outputs
the claims speak about: the final `skip_all` flag, the concatenated change
log and the prompt events.  A country missing from the source is skipped
(lines 796-798); a country with no existing enhanced data goes through full
enhancement (lines 808-811), which prompts for nothing and writes no section
log.  The `skip_all` flag is never reset between countries. -/
def processCountries : List CountryEnv → Bool → Bool × List LogEntry × List (String × String)
  | [], skipAll => (skipAll, [], [])
  | c :: rest, skipAll =>
    if c.inSource = false then processCountries rest skipAll
    else if c.currentEnhanced.isEmpty then processCountries rest skipAll
    else
      let t := processSections c.code c.currentEnhanced
        (sensitive_fields.zip c.fields) skipAll c.currentEnhanced
      let t2 := processCountries rest t.1
      (t2.1, t.2.1 ++ t2.2.1, t.2.2.1 ++ t2.2.2)

/-- `ForeignAffairsEnhancer.enhance_bilateral_relations_selective`
(lines 786-880): run the country loop with `skip_all = False`. -/
def enhance_bilateral_relations_selective (cs : List CountryEnv) :
    Bool × List LogEntry × List (String × String) :=
  processCountries cs false

/-- No section-log entry ever carries status `NO_ACTUAL_CHANGES`: the grant
branch replaces it by the Forced-Update Resolver's status before logging. -/
theorem processSections_no_NAC (country : String) (cur : List (String × PyVal)) :
    ∀ (sections : List (String × FieldEnv)) (skipAll : Bool) (acc : List (String × PyVal))
      (entry : LogEntry),
      entry ∈ (processSections country cur sections skipAll acc).2.1 →
      entry.status ≠ "NO_ACTUAL_CHANGES" := by
  intro sections
  induction sections with
  | nil => intro skipAll acc entry h; simp [processSections] at h
  | cons se rest ih =>
    intro skipAll acc entry h
    obtain ⟨name, e⟩ := se
    unfold processSections at h
    by_cases hskip : skipAll
    · rw [if_pos hskip] at h
      simp at h
    · rw [if_neg hskip] at h
      by_cases hnu : e.needs_update = true
      · rw [if_pos hnu] at h
        cases hperm : e.perm with
        | skipAll => rw [hperm] at h; simp at h
        | deny =>
          rw [hperm] at h
          simp only [List.mem_cons] at h
          rcases h with rfl | h
          · show ("SKIPPED" : String) ≠ "NO_ACTUAL_CHANGES"
            decide
          · exact ih skipAll acc entry h
        | grant =>
          rw [hperm] at h
          simp only [List.mem_cons] at h
          rcases h with rfl | h
          · show (if (enhance_section_selectively name (dictGetD cur name (.dict []))
                  e.enhanceRaw e.enhanceLoads).2 == "NO_ACTUAL_CHANGES" then
                force_section_update name (dictGetD cur name (.dict []))
                  e.developments e.forceRaw e.forceLoads
              else enhance_section_selectively name (dictGetD cur name (.dict []))
                e.enhanceRaw e.enhanceLoads).2 ≠ "NO_ACTUAL_CHANGES"
            by_cases hnac : ((enhance_section_selectively name (dictGetD cur name (.dict []))
                e.enhanceRaw e.enhanceLoads).2 == "NO_ACTUAL_CHANGES") = true
            · rw [if_pos hnac]
              rcases force_status_cases name (dictGetD cur name (.dict []))
                  e.developments e.forceRaw e.forceLoads with hf | hf <;> rw [hf] <;> decide
            · rw [if_neg hnac]
              intro hcontra
              rw [hcontra] at hnac
              simp at hnac
          · exact ih skipAll _ entry h
      · rw [if_neg hnu] at h
        simp only [List.mem_cons] at h
        rcases h with rfl | h
        · show ("NO_CHANGE_NEEDED" : String) ≠ "NO_ACTUAL_CHANGES"
          decide
        · exact ih skipAll acc entry h

/-- Lift of `processSections_no_NAC` through the country loop. -/
theorem processCountries_no_NAC :
    ∀ (cs : List CountryEnv) (skipAll : Bool) (entry : LogEntry),
      entry ∈ (processCountries cs skipAll).2.1 →
      entry.status ≠ "NO_ACTUAL_CHANGES" := by
  intro cs
  induction cs with
  | nil => intro skipAll entry h; simp [processCountries] at h
  | cons c rest ih =>
    intro skipAll entry h
    unfold processCountries at h
    by_cases h1 : c.inSource = false
    · rw [if_pos h1] at h; exact ih _ entry h
    · rw [if_neg h1] at h
      by_cases h2 : c.currentEnhanced.isEmpty
      · rw [if_pos h2] at h; exact ih _ entry h
      · rw [if_neg h2] at h
        simp only [List.mem_append] at h
        rcases h with h | h
        · exact processSections_no_NAC c.code c.currentEnhanced _ _ _ entry h
        · exact ih _ entry h

/-- C2 -- Forced-update guarantee: when the Gate granted and the Merger
reported `NO_ACTUAL_CHANGES`, the orchestrator logs exactly the Forced-Update
Resolver's status for that field, which is always `FORCED_UPDATE` or
`FORCE_FAILED`; and across any whole run, no logged status is ever
`NO_ACTUAL_CHANGES`. -/
theorem forced_update_guarantee :
    (∀ (country name : String) (cur acc : List (String × PyVal)) (e : FieldEnv)
      (rest : List (String × FieldEnv)),
      e.needs_update = true → e.perm = Perm.grant →
      (enhance_section_selectively name (dictGetD cur name (.dict []))
        e.enhanceRaw e.enhanceLoads).2 = "NO_ACTUAL_CHANGES" →
      (processSections country cur ((name, e) :: rest) false acc).2.1.head? =
        some ⟨country, name,
          (force_section_update name (dictGetD cur name (.dict []))
            e.developments e.forceRaw e.forceLoads).2⟩ ∧
      ((force_section_update name (dictGetD cur name (.dict []))
          e.developments e.forceRaw e.forceLoads).2 = "FORCED_UPDATE" ∨
       (force_section_update name (dictGetD cur name (.dict []))
          e.developments e.forceRaw e.forceLoads).2 = "FORCE_FAILED")) ∧
    (∀ (cs : List CountryEnv) (entry : LogEntry),
      entry ∈ (enhance_bilateral_relations_selective cs).2.1 →
      entry.status ≠ "NO_ACTUAL_CHANGES") := by
  constructor
  · intro country name cur acc e rest hnu hperm hnac
    constructor
    · unfold processSections
      rw [if_neg (by simp), if_pos hnu, hperm]
      simp [hnac]
    · exact force_status_cases name (dictGetD cur name (.dict []))
        e.developments e.forceRaw e.forceLoads
  · intro cs entry h
    exact processCountries_no_NAC cs false entry h

/-- Witness for C2: a granted field whose Merger run finds no changes (empty
parsed JSON against a non-empty current dict) and whose forced retry has no
JSON span ends up logged `FORCE_FAILED` -- never `NO_ACTUAL_CHANGES`. -/
theorem forced_update_guarantee_witness :
    (processSections "FRA" [("economic_cooperation", PyVal.dict [("k", PyVal.str "v")])]
      [("economic_cooperation",
        ⟨true, "dev", Perm.grant, "\x7b\x7d", some [], "", Option.none⟩)]
      false [("economic_cooperation", PyVal.dict [("k", PyVal.str "v")])]).2.1.head? =
      some ⟨"FRA", "economic_cooperation", "FORCE_FAILED"⟩ := by
  have h := (forced_update_guarantee).1 "FRA" "economic_cooperation"
    [("economic_cooperation", PyVal.dict [("k", PyVal.str "v")])]
    [("economic_cooperation", PyVal.dict [("k", PyVal.str "v")])]
    ⟨true, "dev", Perm.grant, "\x7b\x7d", some [], "", Option.none⟩
    [] rfl rfl rfl
  exact h.1

/-- A stale field on which the operator answers skip-all. -/
def fieldSkipAllEx : FieldEnv :=
  ⟨true, "dev", Perm.skipAll, "", Option.none, "", Option.none⟩

/-- A stale field on which the operator would grant. -/
def fieldGrantEx : FieldEnv :=
  ⟨true, "dev", Perm.grant, "\x7b\x7d", some [], "", Option.none⟩

/-- First country of the C7 run: operator answers skip-all at its first
section. -/
def countryFRAEx : CountryEnv :=
  ⟨"FRA", true, [("economic_cooperation", PyVal.dict [("k", PyVal.str "v")])],
   [fieldSkipAllEx, fieldGrantEx, fieldGrantEx, fieldGrantEx, fieldGrantEx]⟩

/-- Second country of the C7 run: every section is stale. -/
def countryDEUEx : CountryEnv :=
  ⟨"DEU", true, [("economic_cooperation", PyVal.dict [("k", PyVal.str "v")])],
   [fieldGrantEx, fieldGrantEx, fieldGrantEx, fieldGrantEx, fieldGrantEx]⟩

/-- Counterexample to C7 as stated: after the Approval Gate returns SKIP_ALL
on the first section of `"FRA"`, the subsequent stale fields (all of
`"DEU"`'s, which all have NEEDS_UPDATE) are never logged at all -- the run's
log is empty and contains no `SKIPPED` entry -- because both the
`'skip_all'` answer and the flag check break out of the section loop before
any logging (the `SKIPPED_ALL` branch at line 866 is unreachable).  The
operator is indeed never prompted again (one prompt in the whole run). -/
theorem approval_monotonicity_counterexample :
    (enhance_bilateral_relations_selective [countryFRAEx, countryDEUEx]).2.1 = [] ∧
    (enhance_bilateral_relations_selective [countryFRAEx, countryDEUEx]).2.2 =
      [("FRA", "security_cooperation")] ∧
    countryDEUEx.fields.all (fun e => e.needs_update) = true ∧
    (LogEntry.mk "DEU" "security_cooperation" "SKIPPED") ∉
      (enhance_bilateral_relations_selective [countryFRAEx, countryDEUEx]).2.1 :=
  ⟨by decide, by decide, by decide, by decide⟩

/-- Once `skip_all` is set, the section loop of any country exits at its
first iteration, producing no log entries, no prompts and no data change. -/
theorem processSections_skipAll_stops (country : String) (cur acc : List (String × PyVal))
    (sections : List (String × FieldEnv)) :
    processSections country cur sections true acc = (true, [], [], acc) := by
  cases sections with
  | nil => rfl
  | cons se rest =>
    obtain ⟨n, e⟩ := se
    unfold processSections
    rw [if_pos rfl]

/-- Once `skip_all` is set, the rest of the country loop logs nothing and
prompts for nothing. -/
theorem processCountries_skipAll_stops :
    ∀ cs : List CountryEnv, processCountries cs true = (true, [], []) := by
  intro cs
  induction cs with
  | nil => rfl
  | cons c rest ih =>
    unfold processCountries
    by_cases h1 : c.inSource = false
    · rw [if_pos h1, ih]
    · rw [if_neg h1]
      by_cases h2 : c.currentEnhanced.isEmpty
      · rw [if_pos h2, ih]
      · rw [if_neg h2]
        simp only [processSections_skipAll_stops, ih, List.nil_append]

/-- C7 amended -- Approval monotonicity: once the Approval Gate returns
SKIP_ALL, the operator is never prompted again, and no subsequent field is
evaluated or logged at all (in particular none is logged `SKIPPED`): the
`'skip_all'` answer itself sets the flag and breaks with no log entry, a
section loop entered with the flag set exits immediately, and every remaining
country contributes an empty log and no prompts. -/
theorem approval_monotonicity_amended :
    (∀ (country name : String) (cur acc : List (String × PyVal)) (e : FieldEnv)
      (rest : List (String × FieldEnv)),
      e.needs_update = true → e.perm = Perm.skipAll →
      processSections country cur ((name, e) :: rest) false acc =
        (true, [], [(country, name)], acc)) ∧
    (∀ (country : String) (cur acc : List (String × PyVal))
      (sections : List (String × FieldEnv)),
      processSections country cur sections true acc = (true, [], [], acc)) ∧
    (∀ cs : List CountryEnv, processCountries cs true = (true, [], [])) := by
  refine ⟨?_, ?_, ?_⟩
  · intro country name cur acc e rest hnu hperm
    unfold processSections
    rw [if_neg (by simp), if_pos hnu, hperm]
  · intro country cur acc sections
    exact processSections_skipAll_stops country cur acc sections
  · exact processCountries_skipAll_stops

/-- Witness for C7 (amended): a concrete skip-all answer yields the
one-prompt no-log outcome, and a country processed under a set flag
contributes nothing. -/
theorem approval_monotonicity_amended_witness :
    processSections "FRA" [("economic_cooperation", PyVal.dict [("k", PyVal.str "v")])]
        [("security_cooperation", fieldSkipAllEx)] false
        [("economic_cooperation", PyVal.dict [("k", PyVal.str "v")])] =
      (true, [], [("FRA", "security_cooperation")],
        [("economic_cooperation", PyVal.dict [("k", PyVal.str "v")])]) ∧
    processCountries [countryDEUEx] true = (true, [], []) :=
  ⟨approval_monotonicity_amended.1 "FRA" "security_cooperation"
      [("economic_cooperation", PyVal.dict [("k", PyVal.str "v")])]
      [("economic_cooperation", PyVal.dict [("k", PyVal.str "v")])]
      fieldSkipAllEx [] rfl rfl,
   approval_monotonicity_amended.2.2 [countryDEUEx]⟩

end AffairsAI
